import Mathlib

/-!
Shallow embedding of the BLE proximity-tracking scripts `beacon2.py` and
`beacon_detector.py`.  Python floats are modelled as exact rationals (all
arithmetic in the scripts is on integer RSSI samples and their finite means),
byte strings as lists of naturals, Python `None` as `Option.none`, and the
shared beacon dictionaries as association lists kept in insertion order.
The two concurrent threads of `beacon_detector.py` are modelled by sequential
interleaving of the three external events: an advertisement callback, a click
on the calibrate control, and one pass of the UI update loop.
-/

/-- Python `dict` lookup on an association list in insertion order
(`d[k]` / `d.get(k)` / `k in d`): first binding of the key, if any. -/
def pyLookup {α β : Type} [DecidableEq α] (k : α) : List (α × β) → Option β
  | [] => none
  | (k', v) :: rest => if k' = k then some v else pyLookup k rest

/-- Arithmetic mean of a list of rationals: `statistics.mean(xs)` in
`beacon_detector.py`, `sum(xs) / len(xs)` in `beacon2.py`. -/
def listMean (xs : List ℚ) : ℚ := xs.sum / xs.length

/-- Append to a `deque` with maximum length `cap`: keep the latest `cap`
elements, dropping from the front. -/
def pushWindow (cap : ℕ) (xs : List ℚ) (x : ℚ) : List ℚ :=
  let ys := xs ++ [x]
  ys.drop (ys.length - cap)

/-- Lower-case hex digit of a value below 16, as produced by `bytes.hex()`. -/
def hexChar (n : ℕ) : Char :=
  if n < 10 then Char.ofNat (48 + n) else Char.ofNat (87 + n)

/-- Python `bytes.hex()`: two lower-case hex digits per byte. -/
def bytesHex (bs : List ℕ) : String :=
  String.mk ((bs.map fun b => [hexChar (b / 16), hexChar (b % 16)]).flatten)

/-- Python `int.from_bytes(bs, 'big')`; on the empty slice it yields 0. -/
def intFromBytesBE (bs : List ℕ) : ℕ := bs.foldl (fun a b => a * 256 + b) 0

/-- Decoded iBeacon identity as built by `detection_callback` in `beacon2.py`:
`uuid = beacon_data[2:18].hex()`, big-endian `major = beacon_data[18:20]` and
`minor = beacon_data[20:22]`. -/
structure IBeaconRecord where
  uuid : String
  major : ℕ
  minor : ℕ
deriving DecidableEq

/-- Advertisement decoding performed by `detection_callback` in `beacon2.py`
(lines 23-52): require manufacturer company id `0x004c` to be present and the
payload to start with the marker bytes `b'\x02\x15'`; on a match slice out
uuid, major and minor.  Python slices are total: a truncated payload gives a
short or empty slice and `int.from_bytes` of an empty slice is 0, so the
function never fails. -/
def b2Decode (manufacturer_data : List (ℕ × List ℕ)) : Option IBeaconRecord :=
  match pyLookup 0x004c manufacturer_data with
  | none => none
  | some beacon_data =>
      if beacon_data.take 2 = [0x02, 0x15] then
        some { uuid := bytesHex ((beacon_data.drop 2).take 16)
             , major := intFromBytesBE ((beacon_data.drop 18).take 2)
             , minor := intFromBytesBE ((beacon_data.drop 20).take 2) }
      else none

/-- Per-device tracking state of `beacon2.py` (one `detected_beacons` entry). -/
structure B2Device where
  uuid : String
  major : ℕ
  minor : ℕ
  readings : List ℚ
  avg_rssi : Option ℚ
  prev_avg_rssi : Option ℚ
  trend : String
  last_seen : ℚ
deriving DecidableEq

/-- Fresh `detected_beacons` entry created by `detection_callback` in
`beacon2.py` (lines 39-48).  `last_seen` is not part of the dictionary
literal and is written immediately afterwards; it is modelled as 0 here,
matching a read-back default of 0. -/
def b2NewDevice (beacon_data : List ℕ) : B2Device :=
  { uuid := bytesHex ((beacon_data.drop 2).take 16)
  , major := intFromBytesBE ((beacon_data.drop 18).take 2)
  , minor := intFromBytesBE ((beacon_data.drop 20).take 2)
  , readings := []
  , avg_rssi := none
  , prev_avg_rssi := none
  , trend := "Calculando..."
  , last_seen := 0 }

/-- Averaging-and-trend step of the main loop in `beacon2.py` (lines 70-90),
applied to one device per tick: with a non-empty window recompute the mean,
save the previous mean (only when one was already defined), then classify the
delta of the new mean against the saved one using `TREND_THRESHOLD = 1.5`. -/
def b2TickDevice (d : B2Device) : B2Device :=
  if d.readings.length > 0 then
    let new_avg := listMean d.readings
    let prev := match d.avg_rssi with
      | some a => some a
      | none => d.prev_avg_rssi
    let tr := match prev with
      | none => d.trend
      | some p =>
          if new_avg - p > 1.5 then "Acercándose ⬆️"
          else if new_avg - p < -1.5 then "Alejándose ⬇️"
          else "Estable ⏸️"
    { d with avg_rssi := some new_avg, prev_avg_rssi := prev, trend := tr }
  else d

/-- Descending sort of three values, as Python `sorted([a, b, c],
reverse=True)` on a three-element list (stable; stability is value-irrelevant
for rationals). -/
def sorted3Desc (a b c : ℚ) : ℚ × ℚ × ℚ :=
  if a ≥ b then
    if b ≥ c then (a, b, c)
    else if a ≥ c then (a, c, b)
    else (c, a, b)
  else
    if a ≥ c then (b, a, c)
    else if b ≥ c then (b, c, a)
    else (c, b, a)

/-- Strictly decreasing threshold triple: inner > mid > outer. -/
def strictlyDecreasing3 (t : ℚ × ℚ × ℚ) : Prop := t.1 > t.2.1 ∧ t.2.1 > t.2.2

instance (t : ℚ × ℚ × ℚ) : Decidable (strictlyDecreasing3 t) := by
  unfold strictlyDecreasing3
  exact instDecidableAnd

/-- Threshold derivation at calibration end (`beacon_detector.py` lines
189-201): `p_inner`, `p_mid`, `p_outer` start at 0 and are derived from the
weakest stored baseline only when at least one device has one; the inner
clamp `p_inner = min(-35, p_inner)` and the descending sort are applied in
either case. -/
def calibrateThresholds (home_rssis : List ℚ) : ℚ × ℚ × ℚ :=
  match home_rssis.min? with
  | none => sorted3Desc (min (-35) 0) 0 0
  | some weakest =>
      sorted3Desc (min (-35) (weakest - 5)) (weakest - 5 - 15) (weakest - 5 - 30)

/-- Threshold triple as described by the words of claim C3 (and section 4.4 of
the specification): from a given weakest baseline, inner = min(−35,
weakest−5), mid = (weakest−5)−15, outer = (weakest−5)−30, sorted descending.
This definition follows the claim's words, to be compared with
`calibrateThresholds`, which follows the code. -/
def specC3Thresholds (weakest : ℚ) : ℚ × ℚ × ℚ :=
  sorted3Desc (min (-35) (weakest - 5)) (weakest - 5 - 15) (weakest - 5 - 30)

/-- Zone classification of a smoothed signal against the unpacked threshold
triple (`beacon_detector.py` lines 212-219). -/
def classifyZone (p_inner p_mid p_outer rssi : ℚ) : String :=
  if rssi ≥ p_inner then "ZONA 1"
  else if p_mid ≤ rssi ∧ rssi < p_inner then "ZONA 2"
  else if p_outer ≤ rssi ∧ rssi < p_mid then "ZONA 3"
  else "FUERA"

/-- Text written to the `eventos` table by `log_zone_change_event`
(`beacon_detector.py` lines 38-53). -/
def dbMessage (mac old_zone new_zone : String) : String :=
  "Alerta: Baliza " ++ mac ++ " cambió de zona " ++ old_zone ++ " a "
    ++ new_zone ++ "."

/-- Per-device tracking state of `beacon_detector.py` (one `detected_beacons`
entry). -/
structure BDDevice where
  uuid : String
  name : String
  readings : List ℚ
  avg_rssi : Option ℚ
  home_rssi : Option ℚ
  status : String
  last_seen : ℚ
deriving DecidableEq

/-- Fresh `detected_beacons` entry of `beacon_detector.py` (lines 67-74).
Note that `avg_rssi` starts at the defined sentinel −100, not at `None`,
while the reading window is still empty; `last_seen` is absent from the
literal (read back elsewhere with default 0) and modelled as 0.  The Python
expression `device.name if device.name else "Desconocido"` treats both a
missing and an empty name as falsy. -/
def bdNewDevice (beacon_data : List ℕ) (name : Option String) : BDDevice :=
  { uuid := bytesHex ((beacon_data.drop 2).take 16)
  , name := match name with
      | none => "Desconocido"
      | some s => if s = "" then "Desconocido" else s
  , readings := []
  , avg_rssi := some (-100)
  , home_rssi := none
  , status := "NUEVO"
  , last_seen := 0 }

/-- In-place update of one key's entry in the beacon dictionary. -/
def updateDevice (k : String) (f : BDDevice → BDDevice)
    (l : List (String × BDDevice)) : List (String × BDDevice) :=
  l.map fun p => if p.1 = k then (p.1, f p.2) else p

/-- Mean recomputation for one device (`beacon_detector.py` lines 172-173):
only a non-empty window overwrites `avg_rssi`. -/
def smoothDevice (d : BDDevice) : BDDevice :=
  if d.readings = [] then d
  else { d with avg_rssi := some (listMean d.readings) }

/-- Eviction sweep plus smoothing (`beacon_detector.py` lines 164-173): drop
every entry silent for more than `BEACON_TIMEOUT = 15` seconds, recompute the
mean of every surviving non-empty window. -/
def sweepSmooth (t : ℚ) : List (String × BDDevice) → List (String × BDDevice)
  | [] => []
  | (k, d) :: rest =>
      if t - d.last_seen > 15 then sweepSmooth t rest
      else (k, smoothDevice d) :: sweepSmooth t rest

/-- Monitoring step for one device (`beacon_detector.py` lines 206-225):
classify a defined mean, store the new zone on a change, and write to the
database sink only when the change involves `FUERA`.  The returned list holds
the messages written to the external persistent sink. -/
def monitorOne (p_inner p_mid p_outer : ℚ) (key : String) (d : BDDevice) :
    BDDevice × List String :=
  match d.avg_rssi with
  | none => (d, [])
  | some rssi =>
      let old_status := d.status
      let new_status := classifyZone p_inner p_mid p_outer rssi
      if new_status ≠ old_status then
        ({ d with status := new_status },
         if new_status = "FUERA" ∨ old_status = "FUERA" then
           [dbMessage key old_status new_status]
         else [])
      else (d, [])

/-- Monitoring pass over the whole beacon dictionary in insertion order. -/
def monitorDevices (p_inner p_mid p_outer : ℚ) :
    List (String × BDDevice) → List (String × BDDevice) × List String
  | [] => ([], [])
  | (k, d) :: rest =>
      let h := monitorOne p_inner p_mid p_outer k d
      let r := monitorDevices p_inner p_mid p_outer rest
      ((k, h.1) :: r.1, h.2 ++ r.2)

/-- Shared application state of `beacon_detector.py`: the `APP_STATE`
dictionary plus the calibrate button's disabled flag, which gates delivery of
the calibration-start command. -/
structure BDState where
  mode : String
  calibration_end_time : ℚ
  devices : List (String × BDDevice)
  perimeter_rssi_levels : List ℚ
  button_disabled : Bool
deriving DecidableEq

/-- Initial application state (`APP_STATE` literal, lines 22-27; the button
is created enabled). -/
def bdInit : BDState :=
  { mode := "IDLE"
  , calibration_end_time := 0
  , devices := []
  , perimeter_rssi_levels := []
  , button_disabled := false }

/-- Body of the `start_calibration` click handler (`beacon_detector.py`
lines 106-114): unconditionally enter calibration, set the end time to
`now + CALIBRATION_DURATION` (10 s), clear the thresholds, reset every
tracked device's baseline and zone, and disable the calibrate button. -/
def bdStartCalibration (t : ℚ) (s : BDState) : BDState :=
  { mode := "CALIBRATING"
  , calibration_end_time := t + 10
  , devices := s.devices.map fun p =>
      (p.1, { p.2 with home_rssi := none, status := "CALIBRANDO" })
  , perimeter_rssi_levels := []
  , button_disabled := true }

/-- A click on the calibrate control surface: a disabled flet button fires no
`on_click` handler, so the start command is delivered to `start_calibration`
only while the button is enabled. -/
def bdClick (t : ℚ) (s : BDState) : BDState :=
  if s.button_disabled then s else bdStartCalibration t s

/-- BLE advertisement ingestion of `beacon_detector.py` (`detection_callback`,
lines 58-77): decode (company id `0x004c`, marker `b'\x02\x15'`), create the
entry on first sight, then append the reading to the 10-sample window and
stamp `last_seen`. -/
def bdDetectionCallback (address : String) (name : Option String)
    (manufacturer_data : List (ℕ × List ℕ)) (rssi t : ℚ) (s : BDState) :
    BDState :=
  match pyLookup 0x004c manufacturer_data with
  | none => s
  | some beacon_data =>
      if beacon_data.take 2 = [0x02, 0x15] then
        let devs :=
          if (pyLookup address s.devices).isSome then s.devices
          else s.devices ++ [(address, bdNewDevice beacon_data name)]
        let upd := fun d =>
          { d with readings := pushWindow 10 d.readings rssi, last_seen := t }
        { s with devices := updateDevice address upd devs }
      else s

/-- One pass of `ui_update_loop` (`beacon_detector.py` lines 160-226),
restricted to the tracking state (presentation widgets omitted): eviction
sweep and smoothing, then the calibration controller, then — once
monitoring — zone classification.  Returns the updated state together with
the messages written to the database sink during the pass.  The stored
threshold list is only ever empty or of length three; a non-empty list of any
other length would make the Python unpacking raise and is unreachable, so the
fall-through arm leaves the state untouched. -/
def bdTick (t : ℚ) (s : BDState) : BDState × List String :=
  let devices1 := sweepSmooth t s.devices
  if s.mode = "CALIBRATING" then
    if s.calibration_end_time - t > 0 then
      ({ s with devices := devices1 }, [])
    else
      let devices2 := devices1.map fun p =>
        (p.1, if p.2.avg_rssi.isSome then { p.2 with home_rssi := p.2.avg_rssi }
              else p.2)
      let home_rssis := devices2.filterMap fun p => p.2.home_rssi
      let thr := calibrateThresholds home_rssis
      ({ s with mode := "MONITORING"
              , devices := devices2
              , perimeter_rssi_levels := [thr.1, thr.2.1, thr.2.2]
              , button_disabled := false }, [])
  else if s.mode = "MONITORING" then
    match s.perimeter_rssi_levels with
    | [pIn, pMid, pOut] =>
        let r := monitorDevices pIn pMid pOut devices1
        ({ s with devices := r.1 }, r.2)
    | _ => ({ s with devices := devices1 }, [])
  else ({ s with devices := devices1 }, [])

/-- States of `beacon_detector.py` reachable from startup through the three
external events: a decoded advertisement, a click on the calibrate control,
and one pass of the UI update loop. -/
inductive BDReachable : BDState → Prop
  | init : BDReachable bdInit
  | advert (a : String) (n : Option String) (md : List (ℕ × List ℕ))
      (r t : ℚ) (s : BDState) :
      BDReachable s → BDReachable (bdDetectionCallback a n md r t s)
  | click (t : ℚ) (s : BDState) : BDReachable s → BDReachable (bdClick t s)
  | tick (t : ℚ) (s : BDState) : BDReachable s → BDReachable (bdTick t s).1

/-! ## Theorems -/

/-- C6 (counterexample): a payload far too short to be a full iBeacon frame,
but still beginning with the marker bytes `b'\x02\x15'`, is NOT silently
ignored: the decoder yields a degenerate beacon record for the 2-byte payload
consisting of the marker alone, instead of "no match". -/
theorem c6_counterexample_short_payload_matches :
    b2Decode [(0x004c, [0x02, 0x15])]
      = some { uuid := "", major := 0, minor := 0 } := by
  decide

/-- C6 (amended): the decoder yields a beacon record exactly when company id
`0x004c` is present and the carried payload's first two bytes equal the fixed
marker; absence of the company id yields no match, as does any payload whose
first two bytes differ from the marker (in particular one shorter than two
bytes); a payload carrying the marker but truncated below a full frame still
yields a record with truncated or zero fields; decoding is a total function
and returns normally on the concrete malformed inputs below. -/
theorem c6_decode_characterization :
    (∀ md bd, pyLookup 0x004c md = some bd →
        ((b2Decode md).isSome ↔ bd.take 2 = [0x02, 0x15]))
  ∧ (∀ md, pyLookup 0x004c md = none → b2Decode md = none)
  ∧ b2Decode [] = none
  ∧ b2Decode [(0x004c, [0x02])] = none
  ∧ b2Decode [(0x0059, [0x02, 0x15])] = none
  ∧ b2Decode [(0x004c, [0x02, 0x15, 0xab])]
      = some { uuid := "ab", major := 0, minor := 0 } := by
  refine ⟨?_, ?_, by decide, by decide, by decide, by decide⟩
  · intro md bd h
    unfold b2Decode
    rw [h]
    by_cases hm : bd.take 2 = [0x02, 0x15] <;> simp [hm]
  · intro md h
    unfold b2Decode
    rw [h]

/-- C6 witness: the characterization applied to a concrete advertisement
whose payload carries the marker. -/
theorem c6_witness :
    (b2Decode [(0x004c, [0x02, 0x15, 0x11, 0x22])]).isSome
      ↔ ([0x02, 0x15, 0x11, 0x22] : List ℕ).take 2 = [0x02, 0x15] :=
  c6_decode_characterization.1 [(0x004c, [0x02, 0x15, 0x11, 0x22])]
    [0x02, 0x15, 0x11, 0x22] (by decide)

/-- C5 (counterexample): in `beacon_detector.py` a freshly created device
record has an empty reading window and yet a defined `avg_rssi` (the sentinel
−100), contradicting the claim that `avg_rssi` is undefined from creation
until the window is non-empty. -/
theorem c5_counterexample_sentinel_avg :
    (bdNewDevice [0x02, 0x15] none).readings = []
  ∧ (bdNewDevice [0x02, 0x15] none).avg_rssi = some (-100) :=
  ⟨rfl, rfl⟩

/-- C5 (amended): in `beacon2.py` the claim holds — a fresh device record has
`avg_rssi = None`, a tick leaves a device with an empty window entirely
unchanged (so the mean stays undefined), and only a non-empty window defines
the mean; in `beacon_detector.py`, however, a fresh record carries the
defined sentinel −100 even though its window is still empty. -/
theorem c5_avg_defined_only_with_samples :
    (∀ bd, (b2NewDevice bd).avg_rssi = none)
  ∧ (∀ d : B2Device, d.readings = [] → b2TickDevice d = d)
  ∧ (∀ d : B2Device, d.readings ≠ [] →
      (b2TickDevice d).avg_rssi = some (listMean d.readings))
  ∧ (∀ bd n, (bdNewDevice bd n).avg_rssi = some (-100)) := by
  refine ⟨fun bd => rfl, ?_, ?_, fun bd n => rfl⟩
  · intro d h
    have : ¬ d.readings.length > 0 := by simp [h]
    simp [b2TickDevice, this]
  · intro d h
    have : d.readings.length > 0 := List.length_pos.mpr h
    simp [b2TickDevice, this]

/-- C5 witness: the amended statement applied to a concrete fresh device of
`beacon2.py` (empty window, undefined mean) and to one with a sample. -/
theorem c5_witness :
    b2TickDevice (b2NewDevice []) = b2NewDevice []
  ∧ (b2TickDevice { b2NewDevice [] with readings := [-60] }).avg_rssi
      = some (listMean [-60]) :=
  ⟨c5_avg_defined_only_with_samples.2.1 (b2NewDevice []) rfl,
   c5_avg_defined_only_with_samples.2.2.1
     { b2NewDevice [] with readings := [-60] } (by decide)⟩

/-- C9: once the previous mean is defined at a tick (`beacon2.py` lines
70-90), the trend is Approaching when the delta of the new mean over the
previous one exceeds 1.5 dBm, Receding below −1.5 dBm, Stable otherwise
(`Acercándose ⬆️` / `Alejándose ⬇️` / `Estable ⏸️`); a device whose previous
and current means are both undefined keeps its trend (`Calculando...`, the
Unknown state); mean sequences [−60, −50], [−50, −60] and [−50, −50.5] give
Approaching, Receding and Stable, and a single mean leaves Unknown. -/
theorem c9_trend_classification :
    (∀ (d : B2Device) (p : ℚ), d.readings ≠ [] → d.avg_rssi = some p →
        (b2TickDevice d).trend =
          (if listMean d.readings - p > 1.5 then "Acercándose ⬆️"
           else if listMean d.readings - p < -1.5 then "Alejándose ⬇️"
           else "Estable ⏸️"))
  ∧ (∀ d : B2Device, d.avg_rssi = none → d.prev_avg_rssi = none →
        (b2TickDevice d).trend = d.trend)
  ∧ (b2TickDevice { b2NewDevice [] with readings := [-60] }).trend
      = "Calculando..."
  ∧ (b2TickDevice
      { b2TickDevice { b2NewDevice [] with readings := [-60] } with
        readings := [-50] }).trend = "Acercándose ⬆️"
  ∧ (b2TickDevice
      { b2TickDevice { b2NewDevice [] with readings := [-50] } with
        readings := [-60] }).trend = "Alejándose ⬇️"
  ∧ (b2TickDevice
      { b2TickDevice { b2NewDevice [] with readings := [-50] } with
        readings := [-50.5] }).trend = "Estable ⏸️" := by
  refine ⟨?_, ?_, by norm_num [b2TickDevice, b2NewDevice, listMean],
    by norm_num [b2TickDevice, b2NewDevice, listMean],
    by norm_num [b2TickDevice, b2NewDevice, listMean],
    by norm_num [b2TickDevice, b2NewDevice, listMean]⟩
  · intro d p h hp
    have hl : d.readings.length > 0 := List.length_pos.mpr h
    simp [b2TickDevice, hl, hp, listMean]
  · intro d h1 h2
    by_cases hl : d.readings.length > 0 <;> simp [b2TickDevice, hl, h1, h2]

/-- C9 witness: the general trend characterization applied to a concrete
device whose stored mean is −60 while its window now averages −50. -/
theorem c9_witness :
    (b2TickDevice
      { b2NewDevice [] with readings := [-50], avg_rssi := some (-60) }).trend
      = (if listMean [-50] - (-60) > 1.5 then "Acercándose ⬆️"
         else if listMean [-50] - (-60) < -1.5 then "Alejándose ⬇️"
         else "Estable ⏸️") :=
  c9_trend_classification.1
    { b2NewDevice [] with readings := [-50], avg_rssi := some (-60) }
    (-60) (by simp) rfl

/-- C10: for a device whose current and previous means are both defined, a
tick performed on an unchanged reading window (no new samples since the mean
was last computed) leaves `avg_rssi` unchanged and sets the trend to Stable:
the second of two consecutive ticks over the same window always yields
`Estable ⏸️`, so Approaching or Receding persists only while the windowed
mean keeps changing. -/
theorem c10_stale_window_goes_stable :
    ∀ d : B2Device, d.readings ≠ [] →
      d.avg_rssi.isSome = true → d.prev_avg_rssi.isSome = true →
      (b2TickDevice (b2TickDevice d)).avg_rssi = (b2TickDevice d).avg_rssi
      ∧ (b2TickDevice (b2TickDevice d)).trend = "Estable ⏸️" := by
  intro d h _ _
  have hl : d.readings.length > 0 := List.length_pos.mpr h
  simp only [b2TickDevice, hl, if_true, if_pos]
  simp [hl]
  norm_num

/-- C10 witness: two consecutive ticks over an unchanged single-sample
window, starting from defined current and previous means. -/
theorem c10_witness :
    (b2TickDevice (b2TickDevice
      { b2NewDevice [] with
          readings := [-50]
          avg_rssi := some (-50)
          prev_avg_rssi := some (-60) })).trend = "Estable ⏸️" :=
  (c10_stale_window_goes_stable
    { b2NewDevice [] with
        readings := [-50]
        avg_rssi := some (-50)
        prev_avg_rssi := some (-60) } (by simp) rfl rfl).2

/-- C3 (counterexample): a calibration that completes with no eligible device
does not store the triple the claim's formula yields for weakest = 0.  The
code leaves the raw values at 0 and clamps only the inner one, storing
(0, 0, −35); the claim's formula at weakest = 0 gives (−20, −35, −35). -/
theorem c3_counterexample_degenerate :
    calibrateThresholds [] = (0, 0, -35)
  ∧ specC3Thresholds 0 = (-20, -35, -35)
  ∧ calibrateThresholds [] ≠ specC3Thresholds 0 := by
  refine ⟨?_, ?_, ?_⟩ <;>
    norm_num [calibrateThresholds, specC3Thresholds, sorted3Desc, List.min?,
      min_def]

/-- C3 (amended): whenever at least one device has a defined baseline, the
stored triple is exactly the claim's formula applied to the weakest baseline
(inner = min(−35, weakest−5), mid = (weakest−5)−15, outer = (weakest−5)−30,
sorted descending); in particular baselines {−50, −60, −70} yield
(−75, −90, −105).  Only the no-eligible-device case deviates. -/
theorem c3_threshold_formula :
    (∀ (hs : List ℚ) (w : ℚ), hs.min? = some w →
        calibrateThresholds hs = specC3Thresholds w)
  ∧ calibrateThresholds [-50, -60, -70] = (-75, -90, -105) := by
  constructor
  · intro hs w hmin
    unfold calibrateThresholds specC3Thresholds
    rw [hmin]
  · have hmin : ([-50, -60, -70] : List ℚ).min? = some (-70) := by
      simp [List.min?, List.foldl]
      norm_num [min_def]
    rw [(by unfold calibrateThresholds; rw [hmin] :
          calibrateThresholds [-50, -60, -70]
            = sorted3Desc (min (-35) (-70 - 5)) (-70 - 5 - 15) (-70 - 5 - 30))]
    norm_num [sorted3Desc, min_def]

/-- C3 witness: the general formula applied to a singleton baseline list. -/
theorem c3_witness :
    calibrateThresholds [-40] = specC3Thresholds (-40) :=
  c3_threshold_formula.1 [-40] (-40) (by simp [List.min?])

/-- C2 (counterexample): the state after a calibration that completes with no
eligible devices is reachable (start at time 0, tick at time 10 with no
tracked devices), its threshold triple is set to (0, 0, −35), and that triple
is not strictly decreasing. -/
theorem c2_counterexample_degenerate_thresholds :
    BDReachable (bdTick 10 (bdClick 0 bdInit)).1
  ∧ (bdTick 10 (bdClick 0 bdInit)).1.mode = "MONITORING"
  ∧ (bdTick 10 (bdClick 0 bdInit)).1.perimeter_rssi_levels = [0, 0, -35]
  ∧ ¬ strictlyDecreasing3 (0, 0, -35) := by
  refine ⟨BDReachable.tick 10 _ (BDReachable.click 0 _ BDReachable.init),
    ?_, ?_, ?_⟩
  · norm_num [bdTick, bdClick, bdInit, bdStartCalibration, sweepSmooth,
      calibrateThresholds, sorted3Desc, List.min?, min_def]
  · norm_num [bdTick, bdClick, bdInit, bdStartCalibration, sweepSmooth,
      calibrateThresholds, sorted3Desc, List.min?, min_def]
  · norm_num [strictlyDecreasing3]

/-- Unfolding lemma: strict decrease of an explicit triple. -/
theorem strictlyDecreasing3_mk (a b c : ℚ) :
    strictlyDecreasing3 (a, b, c) ↔ a > b ∧ b > c := Iff.rfl

/-- C2 (amended): the triple stored by a calibration that completes with at
least one eligible device is strictly decreasing (inner > mid > outer)
whenever the weakest baseline is neither −15 nor 0 dBm; at exactly −15 or 0
the −35 clamp collides with a derived value and produces a tie, and with no
eligible devices (0, 0, −35) is stored. -/
theorem c2_thresholds_strictly_decreasing (hs : List ℚ) (w : ℚ)
    (hmin : hs.min? = some w) (h15 : w ≠ -15) (h0 : w ≠ 0) :
    strictlyDecreasing3 (calibrateThresholds hs) := by
  rw [(by unfold calibrateThresholds; rw [hmin] :
        calibrateThresholds hs
          = sorted3Desc (min (-35) (w - 5)) (w - 5 - 15) (w - 5 - 30))]
  rcases le_or_lt (w - 5) (-35) with hc | hc
  · rw [min_eq_right hc]
    unfold sorted3Desc
    split_ifs <;> (rw [strictlyDecreasing3_mk]; constructor <;> linarith)
  · rw [min_eq_left hc.le]
    have h20 : w - 5 - 15 ≠ -35 := fun h => h15 (by linarith)
    have h35 : w - 5 - 30 ≠ -35 := fun h => h0 (by linarith)
    rcases h20.lt_or_lt with h20' | h20' <;> rcases h35.lt_or_lt with h35' | h35' <;>
      · unfold sorted3Desc
        split_ifs <;> (rw [strictlyDecreasing3_mk]; constructor <;> linarith)

/-- C2 witness: strictly decreasing thresholds from the baselines
{−50, −60, −70} of the specification's worked example. -/
theorem c2_witness :
    strictlyDecreasing3 (calibrateThresholds [-50, -60, -70]) :=
  c2_thresholds_strictly_decreasing [-50, -60, -70] (-70)
    (by simp [List.min?, List.foldl]; norm_num [min_def])
    (by norm_num) (by norm_num)

/-- C4: once a threshold triple (inner ≥ mid ≥ outer, as produced by the
descending sort) is defined, a device's mean r is classified ZONA 1 iff
r ≥ inner, ZONA 2 iff mid ≤ r < inner, ZONA 3 iff outer ≤ r < mid and FUERA
iff r < outer; with thresholds (−75, −90, −105) the readings −70, −80, −95
and −110 land in ZONA 1, ZONA 2, ZONA 3 and FUERA respectively. -/
theorem c4_zone_bands :
    (∀ pIn pMid pOut r : ℚ, pMid ≤ pIn → pOut ≤ pMid →
        ((classifyZone pIn pMid pOut r = "ZONA 1" ↔ r ≥ pIn)
       ∧ (classifyZone pIn pMid pOut r = "ZONA 2" ↔ pMid ≤ r ∧ r < pIn)
       ∧ (classifyZone pIn pMid pOut r = "ZONA 3" ↔ pOut ≤ r ∧ r < pMid)
       ∧ (classifyZone pIn pMid pOut r = "FUERA" ↔ r < pOut)))
  ∧ classifyZone (-75) (-90) (-105) (-70) = "ZONA 1"
  ∧ classifyZone (-75) (-90) (-105) (-80) = "ZONA 2"
  ∧ classifyZone (-75) (-90) (-105) (-95) = "ZONA 3"
  ∧ classifyZone (-75) (-90) (-105) (-110) = "FUERA" := by
  refine ⟨?_, by norm_num [classifyZone], by norm_num [classifyZone],
    by norm_num [classifyZone], by norm_num [classifyZone]⟩
  intro pIn pMid pOut r him hmo
  unfold classifyZone
  split_ifs with h1 h2 h3
  · exact ⟨⟨fun _ => h1, fun _ => rfl⟩,
      ⟨fun h => absurd h (by decide), fun h => absurd h.2 (not_lt.mpr h1)⟩,
      ⟨fun h => absurd h (by decide),
       fun h => absurd h.2 (not_lt.mpr (le_trans him h1))⟩,
      ⟨fun h => absurd h (by decide),
       fun h => absurd h (not_lt.mpr (le_trans hmo (le_trans him h1)))⟩⟩
  · exact ⟨⟨fun h => absurd h (by decide), fun h => absurd h h1⟩,
      ⟨fun _ => h2, fun _ => rfl⟩,
      ⟨fun h => absurd h (by decide), fun h => absurd h.2 (not_lt.mpr h2.1)⟩,
      ⟨fun h => absurd h (by decide),
       fun h => absurd h (not_lt.mpr (le_trans hmo h2.1))⟩⟩
  · exact ⟨⟨fun h => absurd h (by decide), fun h => absurd h h1⟩,
      ⟨fun h => absurd h (by decide), fun h => absurd h h2⟩,
      ⟨fun _ => h3, fun _ => rfl⟩,
      ⟨fun h => absurd h (by decide), fun h => absurd h (not_lt.mpr h3.1)⟩⟩
  · have hr1 : r < pIn := not_le.mp h1
    have hr2 : r < pMid := not_le.mp fun hm => h2 ⟨hm, hr1⟩
    have hr3 : r < pOut := not_le.mp fun ho => h3 ⟨ho, hr2⟩
    exact ⟨⟨fun h => absurd h (by decide), fun h => absurd h h1⟩,
      ⟨fun h => absurd h (by decide), fun h => absurd h h2⟩,
      ⟨fun h => absurd h (by decide), fun h => absurd h h3⟩,
      ⟨fun _ => hr3, fun _ => rfl⟩⟩

/-- C4 witness: the band characterization applied at the worked example's
thresholds and the reading −80. -/
theorem c4_witness :
    ((-90 : ℚ) ≤ -75) ∧ ((-105 : ℚ) ≤ -90)
  ∧ (classifyZone (-75) (-90) (-105) (-80) = "ZONA 2"
      ↔ (-90 : ℚ) ≤ -80 ∧ (-80 : ℚ) < -75) :=
  ⟨by norm_num, by norm_num,
   (c4_zone_bands.1 (-75) (-90) (-105) (-80) (by norm_num) (by norm_num)).2.1⟩

/-- C1 (amended): for a device with a defined mean, the monitoring step emits
exactly one sink message when the computed zone differs from the stored one
AND the change involves `FUERA`, and none otherwise; the stored zone always
equals the computed zone afterwards, and re-running the step on the updated
device (a repeated tick at the same classification) emits nothing and changes
nothing. -/
theorem c1_sink_write_characterization :
    ∀ (pIn pMid pOut : ℚ) (key : String) (d : BDDevice) (r : ℚ),
      d.avg_rssi = some r →
      ((monitorOne pIn pMid pOut key d).2.length =
          (if classifyZone pIn pMid pOut r ≠ d.status
              ∧ (classifyZone pIn pMid pOut r = "FUERA" ∨ d.status = "FUERA")
           then 1 else 0))
      ∧ (monitorOne pIn pMid pOut key d).1.status = classifyZone pIn pMid pOut r
      ∧ (monitorOne pIn pMid pOut key
          ((monitorOne pIn pMid pOut key d).1)).2 = []
      ∧ (monitorOne pIn pMid pOut key
          ((monitorOne pIn pMid pOut key d).1)).1
            = (monitorOne pIn pMid pOut key d).1 := by
  intro pIn pMid pOut key d r h
  by_cases hc : classifyZone pIn pMid pOut r ≠ d.status
  · by_cases hf : classifyZone pIn pMid pOut r = "FUERA" ∨ d.status = "FUERA"
    · refine ⟨?_, ?_, ?_, ?_⟩ <;> simp [monitorOne, h, hc, hf]
    · refine ⟨?_, ?_, ?_, ?_⟩ <;> simp [monitorOne, h, hc, hf]
  · have hceq : classifyZone pIn pMid pOut r = d.status := not_not.mp hc
    refine ⟨?_, ?_, ?_, ?_⟩ <;> simp [monitorOne, h, hc, hceq]

/-- C1 witness: a step on a device whose mean −100 classifies into ZONA 3
from stored zone NUEVO — a change not involving FUERA, hence zero messages. -/
theorem c1_witness :
    (monitorOne (-75) (-90) (-105) "AA" (bdNewDevice [] none)).2.length =
      (if classifyZone (-75) (-90) (-105) (-100) ≠ (bdNewDevice [] none).status
          ∧ (classifyZone (-75) (-90) (-105) (-100) = "FUERA"
             ∨ (bdNewDevice [] none).status = "FUERA")
       then 1 else 0) :=
  (c1_sink_write_characterization (-75) (-90) (-105) "AA"
    (bdNewDevice [] none) (-100) rfl).1

/-- The advertisement callback never changes the mode. -/
theorem bdCallback_mode (a : String) (n : Option String)
    (md : List (ℕ × List ℕ)) (r t : ℚ) (s : BDState) :
    (bdDetectionCallback a n md r t s).mode = s.mode := by
  unfold bdDetectionCallback
  cases pyLookup 0x004c md with
  | none => rfl
  | some bd => by_cases h : bd.take 2 = [0x02, 0x15] <;> simp [h]

/-- The advertisement callback never changes the button flag. -/
theorem bdCallback_disabled (a : String) (n : Option String)
    (md : List (ℕ × List ℕ)) (r t : ℚ) (s : BDState) :
    (bdDetectionCallback a n md r t s).button_disabled = s.button_disabled := by
  unfold bdDetectionCallback
  cases pyLookup 0x004c md with
  | none => rfl
  | some bd => by_cases h : bd.take 2 = [0x02, 0x15] <;> simp [h]

/-- A tick that does not complete a calibration preserves both the mode and
the button flag. -/
theorem bdTick_preserves_mode_disabled (t : ℚ) (s : BDState)
    (h : s.mode = "CALIBRATING" → s.calibration_end_time - t > 0) :
    (bdTick t s).1.mode = s.mode
    ∧ (bdTick t s).1.button_disabled = s.button_disabled := by
  by_cases h1 : s.mode = "CALIBRATING"
  · have h2 := h h1
    simp [bdTick, h1, h2]
  · by_cases h3 : s.mode = "MONITORING"
    · rcases hp : s.perimeter_rssi_levels with _ | ⟨a, _ | ⟨b, _ | ⟨c, _ | ⟨e, l⟩⟩⟩⟩ <;>
        simp [bdTick, h1, h3, hp]
    · simp [bdTick, h1, h3]

/-- A tick on an elapsed calibration leaves CALIBRATING for MONITORING and
re-enables the button. -/
theorem bdTick_completes (t : ℚ) (s : BDState) (h1 : s.mode = "CALIBRATING")
    (h2 : ¬ s.calibration_end_time - t > 0) :
    (bdTick t s).1.mode = "MONITORING"
    ∧ (bdTick t s).1.button_disabled = false := by
  simp [bdTick, h1, h2]

/-- In every reachable state the calibrate button is disabled throughout an
Active calibration: it is set disabled on start and re-enabled only by the
tick that completes the session and leaves CALIBRATING. -/
theorem bd_calibrating_button_disabled {s : BDState} (h : BDReachable s) :
    s.mode = "CALIBRATING" → s.button_disabled = true := by
  induction h with
  | init => intro hm; exact absurd hm (by decide)
  | advert a n md r t s h ih =>
      rw [bdCallback_mode, bdCallback_disabled]
      exact ih
  | click t s h ih =>
      unfold bdClick
      by_cases hd : s.button_disabled = true
      · simp [hd]
      · simp only [Bool.not_eq_true] at hd
        simp [hd, bdStartCalibration]
  | tick t s h ih =>
      by_cases hcomp : s.mode = "CALIBRATING" ∧ ¬ s.calibration_end_time - t > 0
      · intro hm
        have hmon := (bdTick_completes t s hcomp.1 hcomp.2).1
        rw [hmon] at hm
        exact absurd hm (by decide)
      · have h' : s.mode = "CALIBRATING" → s.calibration_end_time - t > 0 := by
          intro hc
          by_contra hnot
          exact hcomp ⟨hc, hnot⟩
        obtain ⟨hm', hd'⟩ := bdTick_preserves_mode_disabled t s h'
        rw [hm', hd']
        exact ih

/-- C7: a calibration-start command arriving while a calibration is Active is
rejected as a no-op.  The handler body has no mode guard of its own, but the
only control surface that can issue the command — the calibrate button — is
disabled throughout an Active session in every reachable state, so a click
delivered while Active leaves the entire state (end time, devices, stored
thresholds) unchanged. -/
theorem c7_start_rejected_while_active (s : BDState) (t : ℚ)
    (h : BDReachable s) (hm : s.mode = "CALIBRATING") :
    bdClick t s = s := by
  have hd := bd_calibrating_button_disabled h hm
  unfold bdClick
  rw [hd]
  simp

/-- C7 witness: starting from the initial state, one click enters
CALIBRATING; a second click at a later time is the identity. -/
theorem c7_witness :
    BDReachable (bdClick 0 bdInit)
  ∧ (bdClick 0 bdInit).mode = "CALIBRATING"
  ∧ bdClick 5 (bdClick 0 bdInit) = bdClick 0 bdInit :=
  ⟨BDReachable.click 0 _ BDReachable.init,
   by simp [bdClick, bdInit, bdStartCalibration],
   c7_start_rejected_while_active _ 5
     (BDReachable.click 0 _ BDReachable.init)
     (by simp [bdClick, bdInit, bdStartCalibration])⟩

/-- Dictionary lookup misses exactly the keys outside the key list. -/
theorem pyLookup_eq_none_iff {β : Type} (k : String)
    (l : List (String × β)) :
    pyLookup k l = none ↔ k ∉ l.map Prod.fst := by
  induction l with
  | nil => simp [pyLookup]
  | cons p rest ih =>
      obtain ⟨k', v⟩ := p
      by_cases h : k' = k
      · subst h; simp [pyLookup]
      · simp [pyLookup, h, ih, Ne.symm h]

/-- Updating one entry leaves the key list unchanged. -/
theorem updateDevice_keys (k : String) (f : BDDevice → BDDevice)
    (l : List (String × BDDevice)) :
    (updateDevice k f l).map Prod.fst = l.map Prod.fst := by
  induction l with
  | nil => rfl
  | cons p rest ih =>
      by_cases h : p.1 = k <;>
        simp [updateDevice, h] <;> simpa [updateDevice] using ih

/-- The eviction sweep only ever removes entries: its key list is a sublist
of the original one. -/
theorem sweepSmooth_keys_sublist (t : ℚ) (l : List (String × BDDevice)) :
    List.Sublist ((sweepSmooth t l).map Prod.fst) (l.map Prod.fst) := by
  induction l with
  | nil => simp [sweepSmooth]
  | cons p rest ih =>
      obtain ⟨k, d⟩ := p
      by_cases h : t - d.last_seen > 15
      · simp only [sweepSmooth, if_pos h, List.map_cons]
        exact ih.trans (List.sublist_cons_self _ _)
      · simp only [sweepSmooth, if_neg h, List.map_cons]
        exact ih.cons₂ k

/-- The monitoring pass leaves the key list unchanged. -/
theorem monitorDevices_keys (pIn pMid pOut : ℚ)
    (l : List (String × BDDevice)) :
    ((monitorDevices pIn pMid pOut l).1).map Prod.fst = l.map Prod.fst := by
  induction l with
  | nil => rfl
  | cons p rest ih =>
      obtain ⟨k, d⟩ := p
      simp [monitorDevices, ih]

/-- The baseline-assignment pass at calibration end leaves the key list
unchanged. -/
theorem homeAssign_keys (l : List (String × BDDevice)) :
    ((l.map fun p =>
        (p.1, if p.2.avg_rssi.isSome then { p.2 with home_rssi := p.2.avg_rssi }
              else p.2)).map Prod.fst) = l.map Prod.fst := by
  induction l with
  | nil => rfl
  | cons p rest ih => simp [ih]

/-- The baseline-reset pass at calibration start leaves the key list
unchanged. -/
theorem calibReset_keys (l : List (String × BDDevice)) :
    ((l.map fun p =>
        (p.1, { p.2 with home_rssi := none, status := "CALIBRANDO" })).map
      Prod.fst) = l.map Prod.fst := by
  induction l with
  | nil => rfl
  | cons p rest ih => simp [ih]

/-- In every reachable state the beacon dictionary has no duplicate keys. -/
theorem bd_keys_nodup {s : BDState} (h : BDReachable s) :
    (s.devices.map Prod.fst).Nodup := by
  induction h with
  | init => simp [bdInit]
  | advert a n md r t s h ih =>
      unfold bdDetectionCallback
      cases hmd : pyLookup 0x004c md with
      | none => exact ih
      | some bd =>
          dsimp only
          by_cases hm : bd.take 2 = [0x02, 0x15]
          · rw [if_pos hm]
            simp only [updateDevice_keys]
            by_cases hp : (pyLookup a s.devices).isSome
            · simpa [hp] using ih
            · have hnone : pyLookup a s.devices = none :=
                Option.not_isSome_iff_eq_none.mp hp
              have hnotmem : a ∉ s.devices.map Prod.fst :=
                (pyLookup_eq_none_iff a s.devices).mp hnone
              simp only [hp, Bool.false_eq_true, if_false, if_neg]
              rw [List.map_append]
              refine List.nodup_append.mpr ⟨ih, by simp, ?_⟩
              intro x hx hx'
              simp at hx'
              subst hx'
              exact hnotmem hx
          · rw [if_neg hm]; exact ih
  | click t s h ih =>
      unfold bdClick
      by_cases hd : s.button_disabled = true
      · simpa [hd] using ih
      · simp only [Bool.not_eq_true] at hd
        simp only [hd, Bool.false_eq_true, if_false, if_neg, bdStartCalibration]
        simpa [calibReset_keys] using ih
  | tick t s h ih =>
      have h1 : ((sweepSmooth t s.devices).map Prod.fst).Nodup :=
        ih.sublist (sweepSmooth_keys_sublist t s.devices)
      unfold bdTick
      by_cases hc : s.mode = "CALIBRATING"
      · by_cases h2 : s.calibration_end_time - t > 0
        · simpa [hc, h2] using h1
        · simp only [hc, if_true, h2, if_false]
          simpa [homeAssign_keys] using h1
      · by_cases h3 : s.mode = "MONITORING"
        · rcases hp : s.perimeter_rssi_levels with
            _ | ⟨a, _ | ⟨b, _ | ⟨c, _ | ⟨e, l⟩⟩⟩⟩ <;>
            simp only [hc, h3, hp, if_false, if_true, if_neg, if_pos] <;>
            simpa [monitorDevices_keys] using h1
        · simpa [hc, h3] using h1

/-- A key absent from the dictionary is still absent after the sweep. -/
theorem sweepSmooth_lookup_none (t : ℚ) (l : List (String × BDDevice))
    (k : String) (h : pyLookup k l = none) :
    pyLookup k (sweepSmooth t l) = none := by
  induction l with
  | nil => simp [sweepSmooth, pyLookup]
  | cons p rest ih =>
      obtain ⟨k', d⟩ := p
      have hk : ¬ (k' = k) := by
        intro he
        simp [pyLookup, he] at h
      have hr : pyLookup k rest = none := by simpa [pyLookup, hk] using h
      by_cases hs : t - d.last_seen > 15
      · simp only [sweepSmooth, if_pos hs]
        exact ih hr
      · simp only [sweepSmooth, if_neg hs, pyLookup, hk, if_false, if_neg]
        exact ih hr

/-- A stale entry (silent for more than the timeout) is gone after the sweep
of a duplicate-free dictionary. -/
theorem sweepSmooth_evicts (t : ℚ) (l : List (String × BDDevice)) (k : String)
    (d : BDDevice) (hnd : (l.map Prod.fst).Nodup)
    (hl : pyLookup k l = some d) (hst : t - d.last_seen > 15) :
    pyLookup k (sweepSmooth t l) = none := by
  induction l with
  | nil => simp [pyLookup] at hl
  | cons p rest ih =>
      obtain ⟨k', d'⟩ := p
      have hcons : k' ∉ rest.map Prod.fst ∧ (rest.map Prod.fst).Nodup := by
        have h' := hnd
        rw [List.map_cons, List.nodup_cons] at h'
        exact h'
      by_cases hk : k' = k
      · subst hk
        have hd : d' = d := by simpa [pyLookup] using hl
        subst hd
        have hno : pyLookup k' rest = none :=
          (pyLookup_eq_none_iff _ _).mpr hcons.1
        simp only [sweepSmooth, if_pos hst]
        exact sweepSmooth_lookup_none t rest k' hno
      · have hr : pyLookup k rest = some d := by simpa [pyLookup, hk] using hl
        by_cases hs : t - d'.last_seen > 15
        · simp only [sweepSmooth, if_pos hs]
          exact ih hcons.2 hr
        · simp only [sweepSmooth, if_neg hs, pyLookup, hk, if_false, if_neg]
          exact ih hcons.2 hr

/-- A key absent after the sweep is absent from the devices of the full tick:
the calibration and monitoring phases never add entries. -/
theorem bdTick_lookup_none (t : ℚ) (s : BDState) (k : String)
    (h : pyLookup k (sweepSmooth t s.devices) = none) :
    pyLookup k ((bdTick t s).1.devices) = none := by
  have hmem : k ∉ (sweepSmooth t s.devices).map Prod.fst :=
    (pyLookup_eq_none_iff _ _).mp h
  unfold bdTick
  by_cases hc : s.mode = "CALIBRATING"
  · by_cases h2 : s.calibration_end_time - t > 0
    · simpa [hc, h2] using h
    · simp only [hc, if_true, h2, if_false]
      rw [pyLookup_eq_none_iff]
      simpa [homeAssign_keys] using hmem
  · by_cases h3 : s.mode = "MONITORING"
    · rcases hp : s.perimeter_rssi_levels with
        _ | ⟨a, _ | ⟨b, _ | ⟨c, _ | ⟨e, l⟩⟩⟩⟩ <;>
        simp only [hc, h3, hp, if_false, if_true, if_neg, if_pos] <;>
        (rw [pyLookup_eq_none_iff]; simpa [monitorDevices_keys] using hmem)
    · simpa [hc, h3] using h

/-- Updating one key's entry maps the stored value through the update. -/
theorem pyLookup_updateDevice_self (k : String) (f : BDDevice → BDDevice)
    (l : List (String × BDDevice)) :
    pyLookup k (updateDevice k f l) = Option.map f (pyLookup k l) := by
  induction l with
  | nil => simp [pyLookup, updateDevice]
  | cons p rest ih =>
      obtain ⟨k', v⟩ := p
      by_cases h : k' = k
      · subst h
        rw [show updateDevice k' f ((k', v) :: rest)
              = (k', f v) :: updateDevice k' f rest from by simp [updateDevice]]
        simp [pyLookup]
      · rw [show updateDevice k f ((k', v) :: rest)
              = (k', v) :: updateDevice k f rest from by simp [updateDevice, h]]
        simp [pyLookup, h, ih]

/-- Appending a fresh binding at the end makes it the one found, provided the
key was absent before (Python dict insertion). -/
theorem pyLookup_append_absent (k : String) (l : List (String × BDDevice))
    (v : BDDevice) (h : pyLookup k l = none) :
    pyLookup k (l ++ [(k, v)]) = some v := by
  induction l with
  | nil => simp [pyLookup]
  | cons p rest ih =>
      obtain ⟨k', v'⟩ := p
      have hk : ¬ (k' = k) := by
        intro he
        simp [pyLookup, he] at h
      have hr : pyLookup k rest = none := by simpa [pyLookup, hk] using h
      simp only [List.cons_append, pyLookup, hk, if_false, if_neg]
      exact ih hr

/-- C8: a device silent beyond the timeout at a tick is removed entirely —
the sweep runs first, before and independent of any calibration-mode logic,
and no later phase of the tick re-adds the key; and an advertisement for an
absent address builds a brand-new entry from the dictionary literal alone
(window = [rssi], last_seen = now, baseline undefined, zone NUEVO), retaining
nothing from any earlier record. -/
theorem c8_eviction_and_fresh_recreation :
    (∀ (s : BDState) (t : ℚ) (k : String) (d : BDDevice),
        BDReachable s → pyLookup k s.devices = some d →
        t - d.last_seen > 15 →
        pyLookup k ((bdTick t s).1.devices) = none)
  ∧ (∀ (s : BDState) (k : String) (n : Option String)
        (md : List (ℕ × List ℕ)) (bd : List ℕ) (r t : ℚ),
        pyLookup 0x004c md = some bd → bd.take 2 = [0x02, 0x15] →
        pyLookup k s.devices = none →
        pyLookup k ((bdDetectionCallback k n md r t s).devices)
          = some { bdNewDevice bd n with readings := [r], last_seen := t })
  ∧ (∀ bd n, (bdNewDevice bd n).home_rssi = none
      ∧ (bdNewDevice bd n).status = "NUEVO"
      ∧ (bdNewDevice bd n).readings = []) := by
  refine ⟨?_, ?_, fun bd n => ⟨rfl, rfl, rfl⟩⟩
  · intro s t k d hreach hl hst
    exact bdTick_lookup_none t s k
      (sweepSmooth_evicts t s.devices k d (bd_keys_nodup hreach) hl hst)
  · intro s k n md bd r t hmd hmark habs
    unfold bdDetectionCallback
    rw [hmd]
    dsimp only
    rw [if_pos hmark]
    have habs' : (pyLookup k s.devices).isSome = false := by simp [habs]
    simp only [habs', Bool.false_eq_true, if_false, if_neg]
    rw [pyLookup_updateDevice_self, pyLookup_append_absent k s.devices _ habs]
    simp [pushWindow, bdNewDevice]

/-- C8 witness: a device advertised at time 0 and silent until a tick at time
20 (beyond the 15 s timeout) is gone from the registry; and the advertisement
into the empty initial registry creates exactly the fresh literal record. -/
theorem c8_witness :
    pyLookup "AA" ((bdDetectionCallback "AA" none [(0x004c, [0x02, 0x15])]
        (-70) 0 bdInit).devices)
      = some { bdNewDevice [0x02, 0x15] none with
                 readings := [-70]
                 last_seen := 0 }
  ∧ pyLookup "AA" ((bdTick 20 (bdDetectionCallback "AA" none
        [(0x004c, [0x02, 0x15])] (-70) 0 bdInit)).1.devices) = none := by
  have hfresh := c8_eviction_and_fresh_recreation.2.1 bdInit "AA" none
    [(0x004c, [0x02, 0x15])] [0x02, 0x15] (-70) 0
    (by simp [pyLookup]) (by decide) (by simp [bdInit, pyLookup])
  refine ⟨hfresh, ?_⟩
  exact c8_eviction_and_fresh_recreation.1 _ 20 "AA"
    { bdNewDevice [0x02, 0x15] none with readings := [-70], last_seen := 0 }
    (BDReachable.advert "AA" none [(0x004c, [0x02, 0x15])] (-70) 0 bdInit
      BDReachable.init)
    hfresh
    (by norm_num)

/-- C1 (counterexample): a reachable monitoring tick at which a tracked
device's zone changes (from CALIBRANDO to ZONA 1) while NO message is written
to the external persistent sink — the code only writes to the database when
the change involves FUERA.  Trace: one advertisement at −70 dBm at time 0,
calibration started at time 0 and completed by the tick at time 10 (storing
thresholds (−75, −90, −105)), then the tick at time 11 reclassifies the
device from its stored zone CALIBRANDO to ZONA 1 and emits nothing. -/
theorem c1_counterexample_silent_zone_change :
    BDReachable (bdTick 10 (bdClick 0 (bdDetectionCallback "AA" none
        [(0x004c, [0x02, 0x15])] (-70) 0 bdInit))).1
  ∧ (pyLookup "AA" ((bdTick 10 (bdClick 0 (bdDetectionCallback "AA" none
        [(0x004c, [0x02, 0x15])] (-70) 0 bdInit))).1.devices)).map
      BDDevice.status = some "CALIBRANDO"
  ∧ (bdTick 10 (bdClick 0 (bdDetectionCallback "AA" none
        [(0x004c, [0x02, 0x15])] (-70) 0 bdInit))).1.mode = "MONITORING"
  ∧ (bdTick 10 (bdClick 0 (bdDetectionCallback "AA" none
        [(0x004c, [0x02, 0x15])] (-70) 0 bdInit))).1.perimeter_rssi_levels
      = [-75, -90, -105]
  ∧ (bdTick 11 (bdTick 10 (bdClick 0 (bdDetectionCallback "AA" none
        [(0x004c, [0x02, 0x15])] (-70) 0 bdInit))).1).2 = []
  ∧ (pyLookup "AA" ((bdTick 11 (bdTick 10 (bdClick 0 (bdDetectionCallback
        "AA" none [(0x004c, [0x02, 0x15])] (-70) 0 bdInit))).1).1.devices)).map
      BDDevice.status = some "ZONA 1" := by
  have h0 : bdDetectionCallback "AA" none [(0x004c, [0x02, 0x15])] (-70) 0
      bdInit
      = { mode := "IDLE"
          calibration_end_time := 0
          devices := [("AA",
            { uuid := ""
              name := "Desconocido"
              readings := [-70]
              avg_rssi := some (-100)
              home_rssi := none
              status := "NUEVO"
              last_seen := 0 })]
          perimeter_rssi_levels := []
          button_disabled := false } := by decide
  have h1 : bdClick 0 (bdDetectionCallback "AA" none
      [(0x004c, [0x02, 0x15])] (-70) 0 bdInit)
      = { mode := "CALIBRATING"
          calibration_end_time := 10
          devices := [("AA",
            { uuid := ""
              name := "Desconocido"
              readings := [-70]
              avg_rssi := some (-100)
              home_rssi := none
              status := "CALIBRANDO"
              last_seen := 0 })]
          perimeter_rssi_levels := []
          button_disabled := true } := by
    rw [h0]
    norm_num [bdClick, bdStartCalibration]
  have h2 : bdTick 10 (bdClick 0 (bdDetectionCallback "AA" none
      [(0x004c, [0x02, 0x15])] (-70) 0 bdInit))
      = ({ mode := "MONITORING"
           calibration_end_time := 10
           devices := [("AA",
             { uuid := ""
               name := "Desconocido"
               readings := [-70]
               avg_rssi := some (-70)
               home_rssi := some (-70)
               status := "CALIBRANDO"
               last_seen := 0 })]
           perimeter_rssi_levels := [-75, -90, -105]
           button_disabled := false }, []) := by
    have hcal : calibrateThresholds [-70] = (-75, -90, -105) := by
      rw [(by unfold calibrateThresholds
              rw [(by simp [List.min?] : ([(-70 : ℚ)].min?) = some (-70))] :
            calibrateThresholds [-70]
              = sorted3Desc (min (-35) ((-70 : ℚ) - 5)) ((-70 : ℚ) - 5 - 15)
                  ((-70 : ℚ) - 5 - 30))]
      norm_num [sorted3Desc, min_def]
    rw [h1]
    norm_num [bdTick, sweepSmooth, smoothDevice, listMean,
      List.filterMap_cons, hcal]
  have h3 : bdTick 11 (bdTick 10 (bdClick 0 (bdDetectionCallback "AA" none
      [(0x004c, [0x02, 0x15])] (-70) 0 bdInit))).1
      = ({ mode := "MONITORING"
           calibration_end_time := 10
           devices := [("AA",
             { uuid := ""
               name := "Desconocido"
               readings := [-70]
               avg_rssi := some (-70)
               home_rssi := some (-70)
               status := "ZONA 1"
               last_seen := 0 })]
           perimeter_rssi_levels := [-75, -90, -105]
           button_disabled := false }, []) := by
    rw [h2]
    dsimp only
    unfold bdTick
    rw [if_neg (show ¬(("MONITORING" : String) = "CALIBRATING") from by decide)]
    rw [if_pos rfl]
    dsimp only
    norm_num [sweepSmooth, smoothDevice, listMean, monitorDevices, monitorOne,
      classifyZone,
      show ¬(("ZONA 1" : String) = "CALIBRANDO") from by decide,
      show ¬(("ZONA 1" : String) = "FUERA") from by decide,
      show ¬(("CALIBRANDO" : String) = "FUERA") from by decide]
  refine ⟨BDReachable.tick 10 _ (BDReachable.click 0 _
      (BDReachable.advert "AA" none [(0x004c, [0x02, 0x15])] (-70) 0 _
        BDReachable.init)), ?_, ?_, ?_, ?_, ?_⟩
  · rw [h2]
    simp [pyLookup]
  · rw [h2]
  · rw [h2]
  · rw [h3]
  · rw [h3]
    simp [pyLookup]
